import Mathlib

/-!
Shallow embedding of `setup.py` (Elasticsearch index provisioning and NDJSON
bulk loading script) and proofs about its specified behaviour.

The embedding models:
- Python JSON values (`Json`) and `dict.get` semantics, including the
  `AttributeError` raised when `.get` is called on a non-dict;
- input lines of the NDJSON file (`Line`): a line is blank/whitespace-only,
  parses to a JSON value, or fails `json.loads`;
- the pairing loop of `parse_ndjson_for_bulk` (structural form `parseLoopAux`
  and index-cursor form `loopBodyStep`/`runLoop` mirroring the `while` loop);
- `create_index`, `bulk_index_documents`, `read_mapping_file`,
  `connect_to_elasticsearch` and `main`, with external cluster behaviour
  supplied as oracle values and the performed network calls collected as a
  trace.
-/

/-- Python JSON values as produced by `json.loads`. Objects are association
lists with distinct keys (a Python `dict` cannot hold duplicate keys). -/
inductive Json where
  | null
  | bool (b : Bool)
  | num (n : Int)
  | str (s : String)
  | arr (elems : List Json)
  | obj (fields : List (String × Json))

/-- First-occurrence lookup in an object's field list (Python `dict` lookup;
`json.loads` never yields duplicate keys, so first occurrence is exact). -/
def lookupKey (key : String) : List (String × Json) → Option Json
  | [] => none
  | (k, v) :: rest => if k = key then some v else lookupKey key rest

/-- Python `x.get(key)` on a value `x`: `none` models the `AttributeError`
raised when `x` is not a dict; `some o` is the normal return, where `o` is
the stored value or Python `None` when the key is absent. -/
def dictGet (j : Json) (key : String) : Option (Option Json) :=
  match j with
  | Json.obj fields => some (lookupKey key fields)
  | _ => none

/-- One line of the NDJSON input file, classified by what
`json.loads(line.strip())` does with it: the stripped line is empty
(`blank`), raises `json.JSONDecodeError` (`malformed`), or parses to a
JSON value (`json v`). -/
inductive Line where
  | blank
  | malformed
  | json (v : Json)

/-- `not line.strip()`: true exactly for empty/whitespace-only lines. -/
def Line.isBlank : Line → Bool
  | Line.blank => true
  | _ => false

/-- `json.loads(line.strip())`: `some v` on success, `none` when it raises
`json.JSONDecodeError` (which a blank string also does). -/
def parseLine : Line → Option Json
  | Line.json v => some v
  | _ => none

/-- The bulk-action dict built at lines 86-90 of `setup.py`:
`{'_index': ..., '_id': ..., '_source': ...}`. `_index`/`_id` are `none`
when Python stores `None` there. -/
structure BulkDoc where
  _index : Option Json
  _id : Option Json
  _source : Json

/-- Warnings printed by the parsing loop, carrying the 1-based line number
used in the message. -/
inductive Warning where
  | invalidJson (lineNo : Nat)
  | missingDoc (lineNo : Nat)
deriving DecidableEq, Repr

/-- Lines 84-90 of `setup.py`:
`index_info = index_action.get('index', {})` followed by
`index_info.get('_index')` and `index_info.get('_id')`.
Returns `none` when an `AttributeError` is raised (the action value or its
`index` entry is not a dict), which escapes the `except json.JSONDecodeError`
handler and aborts the whole parse. -/
def buildDoc (act doc : Json) : Option BulkDoc :=
  match dictGet act "index" with
  | none => none
  | some info? =>
    let info := info?.getD (Json.obj [])
    match dictGet info "_index", dictGet info "_id" with
    | some ix, some id => some { _index := ix, _id := id, _source := doc }
    | _, _ => none

/-- Prepend an `Invalid JSON at line n` warning to a loop result. -/
def withWarn (n : Nat) (r : Option (List BulkDoc) × List Warning) :
    Option (List BulkDoc) × List Warning :=
  (r.1, Warning.invalidJson n :: r.2)

/-- The `while i < len(lines)` loop of `parse_ndjson_for_bulk`
(lines 71-98 of `setup.py`), in structural form over the suffix of lines
not yet visited; `i` is the 0-based index of the head of that suffix in the
whole file, used only for warning line numbers. Branches:
blank line skipped (`i += 1`); action fails `json.loads` → warning at
line `i+1`, `i += 1`; action parses but is the last line → missing-document
warning at `i+1`, `i += 1` then the loop ends; document line fails
`json.loads` → same `Invalid JSON` warning at `i+1` and `i += 1`, so the
document line is retried as the next action; both parse → the doc dict is
built (aborting everything with `None` if `AttributeError` is raised) and
appended, `i += 2`. -/
def parseLoopAux (i : Nat) : List Line → Option (List BulkDoc) × List Warning
  | [] => (some [], [])
  | l :: rest =>
    if l.isBlank then parseLoopAux (i + 1) rest
    else
      match parseLine l with
      | none => withWarn (i + 1) (parseLoopAux (i + 1) rest)
      | some act =>
        match rest with
        | [] => (some [], [Warning.missingDoc (i + 1)])
        | d :: rest2 =>
          match parseLine d with
          | none => withWarn (i + 1) (parseLoopAux (i + 1) (d :: rest2))
          | some docData =>
            match buildDoc act docData with
            | none => (none, [])
            | some bd =>
              let r := parseLoopAux (i + 2) rest2
              (r.1.map (fun t => bd :: t), r.2)
termination_by ls => ls.length
decreasing_by
  all_goals simp only [List.length_cons]
  all_goals omega

/-- Input to `parse_ndjson_for_bulk`: either the file cannot be opened
(`FileNotFoundError`) or it has some list of lines. -/
inductive ParseInput where
  | fileMissing
  | content (lines : List Line)

/-- `parse_ndjson_for_bulk` (lines 63-108 of `setup.py`): `none` documents
means the function returned Python `None` (file missing, or an exception
such as `AttributeError` escaped the loop); warnings are what the loop
printed before returning. -/
def parse_ndjson_for_bulk : ParseInput → Option (List BulkDoc) × List Warning
  | ParseInput.fileMissing => (none, [])
  | ParseInput.content ls => parseLoopAux 0 ls

/-- Helper generating a well-formed stream: each pair contributes its action
line then its document line, both parsing successfully. -/
def pairLines : List (Json × Json) → List Line
  | [] => []
  | (a, d) :: ps => Line.json a :: Line.json d :: pairLines ps

/-- The records a list of action/document pairs should produce, one per pair
on which `buildDoc` does not raise. -/
def expectedDocs (ps : List (Json × Json)) : List BulkDoc :=
  ps.filterMap (fun p => buildDoc p.1 p.2)

/-- Outcome of one iteration of the `while` loop, cursor view: `next i`
continues the loop with cursor `i`; `abort` means a non-`JSONDecodeError`
exception was raised, so the function returns `None` (the loop ends). -/
inductive StepOut where
  | next (i : Nat)
  | abort
deriving DecidableEq, Repr

/-- One iteration of the `while i < len(lines)` loop (lines 71-98 of
`setup.py`) as a cursor transformer, mirroring the index arithmetic of the
source (`lines[i]`, the `i + 1 < len(lines)` test, `lines[i + 1]`, and the
`i += 1` / `i += 2` updates). `lines.get? i = none` cannot occur while the
loop guard `i < len(lines)` holds; it is mapped to `abort`. -/
def loopBodyStep (lines : List Line) (i : Nat) : StepOut :=
  match lines.get? i with
  | none => StepOut.abort
  | some l =>
    if l.isBlank then StepOut.next (i + 1)
    else
      match parseLine l with
      | none => StepOut.next (i + 1)
      | some act =>
        match lines.get? (i + 1) with
        | none => StepOut.next (i + 1)
        | some d =>
          match parseLine d with
          | none => StepOut.next (i + 1)
          | some docData =>
            match buildDoc act docData with
            | none => StepOut.abort
            | some _ => StepOut.next (i + 2)

/-- The whole `while` loop as iterated `loopBodyStep`, with explicit fuel:
`some i` means the loop finished (guard became false, or the function
returned through an exception) with final cursor `i`; `none` means the fuel
ran out before the loop finished. Proving the result is `some` for fuel
`lines.length` is exactly proving the Python loop terminates. -/
def runLoop (lines : List Line) (fuel i : Nat) : Option Nat :=
  if i < lines.length then
    match fuel with
    | 0 => none
    | fuel' + 1 =>
      match loopBodyStep lines i with
      | StepOut.abort => some i
      | StepOut.next j => runLoop lines fuel' j
  else some i

/-- Outcome of one Elasticsearch client call: a returned value, or a raised
exception. -/
inductive OpResult (α : Type) where
  | ok (a : α)
  | raised
deriving DecidableEq, Repr

/-- Network calls the script can make against the cluster. -/
inductive NetCall where
  | ping
  | existsCheck
  | deleteIndex
  | createIndex
  | bulkSubmit
deriving DecidableEq, Repr

/-- Oracle for the cluster's responses to the three index operations used by
`create_index` (`es.indices.exists`, `es.indices.delete`,
`es.indices.create`). -/
structure ESIndices where
  existsResult : OpResult Bool
  deleteResult : OpResult Unit
  createResult : OpResult Unit

/-- `create_index` (lines 44-60 of `setup.py`): checks existence, deletes the
index if it exists, then creates it; any exception in the `try` block is
caught and `False` returned. Also returns the list of cluster calls made,
in order. -/
def create_index (es : ESIndices) : Bool × List NetCall :=
  match es.existsResult with
  | OpResult.raised => (false, [NetCall.existsCheck])
  | OpResult.ok true =>
    match es.deleteResult with
    | OpResult.raised => (false, [NetCall.existsCheck, NetCall.deleteIndex])
    | OpResult.ok _ =>
      match es.createResult with
      | OpResult.raised =>
        (false, [NetCall.existsCheck, NetCall.deleteIndex, NetCall.createIndex])
      | OpResult.ok _ =>
        (true, [NetCall.existsCheck, NetCall.deleteIndex, NetCall.createIndex])
  | OpResult.ok false =>
    match es.createResult with
    | OpResult.raised => (false, [NetCall.existsCheck, NetCall.createIndex])
    | OpResult.ok _ => (true, [NetCall.existsCheck, NetCall.createIndex])

/-- Oracle for the `elasticsearch.helpers.bulk` call: it completed with a
success count and a (possibly empty) list of per-document failures, or it
raised. -/
inductive BulkOutcome where
  | ok (successCount : Nat) (failedItems : List String)
  | raised

/-- `bulk_index_documents` (lines 111-143 of `setup.py`): parse the NDJSON
file; `None` documents → `False`; empty documents → `False` (reported, no
bulk call); otherwise call `bulk` — `True` unless the call raised, per-record
failures only being logged. Also returns the network calls made. -/
def bulk_index_documents (input : ParseInput) (outcome : BulkOutcome) :
    Bool × List NetCall :=
  match (parse_ndjson_for_bulk input).1 with
  | none => (false, [])
  | some docs =>
    if docs.isEmpty then (false, [])
    else
      match outcome with
      | BulkOutcome.raised => (false, [NetCall.bulkSubmit])
      | BulkOutcome.ok _ _ => (true, [NetCall.bulkSubmit])

/-- Result of running a component that may call `sys.exit`: a value returned
to the caller, or process termination with an exit code. -/
inductive ProcResult (α : Type) where
  | ret (a : α)
  | exits (code : Nat)

/-- State of the mapping file on disk: absent, present but not valid JSON,
or valid JSON with the given content. -/
inductive MappingFileState where
  | missing
  | invalidJson
  | valid (m : Json)

/-- `read_mapping_file` (lines 8-20 of `setup.py`): returns the parsed
mapping on success; on `FileNotFoundError` or `json.JSONDecodeError` it
calls `sys.exit(1)` itself rather than returning to the caller. -/
def read_mapping_file : MappingFileState → ProcResult Json
  | MappingFileState.missing => ProcResult.exits 1
  | MappingFileState.invalidJson => ProcResult.exits 1
  | MappingFileState.valid m => ProcResult.ret m

/-- Oracle for `connect_to_elasticsearch`: client construction raised, or the
`ping` liveness check returned false, or it returned true. -/
inductive ConnOutcome where
  | constructRaises
  | pingFails
  | pingOk

/-- `connect_to_elasticsearch` (lines 23-41 of `setup.py`): returns a client
(`some ()`) when `ping` succeeds, `none` (Python `None`) when `ping` fails or
construction raises; never exits. Also returns the network calls made. -/
def connect_to_elasticsearch : ConnOutcome → Option Unit × List NetCall
  | ConnOutcome.constructRaises => (none, [])
  | ConnOutcome.pingFails => (none, [NetCall.ping])
  | ConnOutcome.pingOk => (some (), [NetCall.ping])

/-- `if not x` truthiness of `os.getenv` results: `None` (variable unset) and
the empty string are falsy. -/
def truthy : Option String → Bool
  | none => false
  | some s => !s.isEmpty

/-- How a run of `main` ends: `sys.exit(code)`, or fall-through success. -/
inductive MainResult where
  | exited (code : Nat)
  | completed

/-- Everything external that determines a run of `main`: the two environment
variables, the connection outcome, the mapping file, the cluster's responses
for the two provisioned indices (`ubi_events`, `ubi_queries`), the NDJSON
file and the bulk call outcome. -/
structure MainWorld where
  es_host : Option String
  api_key : Option String
  conn : ConnOutcome
  mappingFile : MappingFileState
  eventsIndex : ESIndices
  queriesIndex : ESIndices
  ndjson : ParseInput
  bulkOutcome : BulkOutcome

/-- `main` (lines 146-188 of `setup.py`): env checks, connect, read the
mapping file twice, create the two indices, bulk index; the first failing
step exits with status 1 (`read_mapping_file` exiting by itself). Returns
how the process ended and the network calls made, in order. -/
def mainRun (w : MainWorld) : MainResult × List NetCall :=
  if truthy w.es_host = false then (MainResult.exited 1, [])
  else if truthy w.api_key = false then (MainResult.exited 1, [])
  else
    match connect_to_elasticsearch w.conn with
    | (none, calls) => (MainResult.exited 1, calls)
    | (some _, calls) =>
      match read_mapping_file w.mappingFile with
      | ProcResult.exits c => (MainResult.exited c, calls)
      | ProcResult.ret _ =>
        match read_mapping_file w.mappingFile with
        | ProcResult.exits c => (MainResult.exited c, calls)
        | ProcResult.ret _ =>
          let r1 := create_index w.eventsIndex
          if r1.1 = false then (MainResult.exited 1, calls ++ r1.2)
          else
            let r2 := create_index w.queriesIndex
            if r2.1 = false then (MainResult.exited 1, calls ++ r1.2 ++ r2.2)
            else
              let rb := bulk_index_documents w.ndjson w.bulkOutcome
              if rb.1 = false then
                (MainResult.exited 1, calls ++ r1.2 ++ r2.2 ++ rb.2)
              else (MainResult.completed, calls ++ r1.2 ++ r2.2 ++ rb.2)

/-- The action line `{"index":{"_index":ix,"_id":id}}` of the spec's example. -/
def exAction (ix id : String) : Json :=
  Json.obj [("index", Json.obj [("_index", Json.str ix), ("_id", Json.str id)])]

/-- The document line `{"f":n}` of the spec's example. -/
def exBody (n : Int) : Json := Json.obj [("f", Json.num n)]

/-- The two action/document pairs of the spec's example input. -/
def exPairs : List (Json × Json) :=
  [(exAction "a" "1", exBody 1), (exAction "a" "2", exBody 2)]

theorem parseLoopAux_docFail (i : Nat) (a : Json) (d : Line) (rest2 : List Line)
    (hd : parseLine d = none) :
    parseLoopAux i (Line.json a :: d :: rest2)
      = withWarn (i + 1) (parseLoopAux (i + 1) (d :: rest2)) := by
  cases d with
  | json v => simp [parseLine] at hd
  | blank =>
    rw [parseLoopAux.eq_2]
    simp [Line.isBlank, parseLine]
  | malformed =>
    rw [parseLoopAux.eq_2]
    simp [Line.isBlank, parseLine]

theorem parseLoopAux_nil (i : Nat) : parseLoopAux i [] = (some [], []) :=
  parseLoopAux.eq_1 i

theorem parseLoopAux_blank (i : Nat) (rest : List Line) :
    parseLoopAux i (Line.blank :: rest) = parseLoopAux (i + 1) rest := by
  rw [parseLoopAux.eq_2]
  simp [Line.isBlank]

theorem parseLoopAux_malformed (i : Nat) (rest : List Line) :
    parseLoopAux i (Line.malformed :: rest)
      = withWarn (i + 1) (parseLoopAux (i + 1) rest) := by
  rw [parseLoopAux.eq_2]
  simp [Line.isBlank, parseLine]

theorem parseLoopAux_orphan (i : Nat) (a : Json) :
    parseLoopAux i [Line.json a] = (some [], [Warning.missingDoc (i + 1)]) := by
  rw [parseLoopAux.eq_2]
  simp [Line.isBlank, parseLine]

theorem parseLoopAux_pair (i : Nat) (a b : Json) (bd : BulkDoc)
    (rest2 : List Line) (hb : buildDoc a b = some bd) :
    parseLoopAux i (Line.json a :: Line.json b :: rest2)
      = (((parseLoopAux (i + 2) rest2).1).map (fun t => bd :: t),
         (parseLoopAux (i + 2) rest2).2) := by
  rw [parseLoopAux.eq_2]
  simp [Line.isBlank, parseLine, hb]

theorem parseLoopAux_pairAbort (i : Nat) (a b : Json) (rest2 : List Line)
    (hb : buildDoc a b = none) :
    parseLoopAux i (Line.json a :: Line.json b :: rest2) = (none, []) := by
  rw [parseLoopAux.eq_2]
  simp [Line.isBlank, parseLine, hb]

/-- Running the loop over a well-formed prefix of pairs (all of whose
action dicts can be read without `AttributeError`) emits exactly the
expected record per pair and then continues with the remaining lines,
the cursor having advanced by two per pair. -/
theorem parseLoopAux_pairsRun (ps : List (Json × Json))
    (h : ∀ p ∈ ps, (buildDoc p.1 p.2).isSome = true) (i : Nat)
    (rest : List Line) :
    parseLoopAux i (pairLines ps ++ rest)
      = (((parseLoopAux (i + 2 * ps.length) rest).1).map
          (fun t => expectedDocs ps ++ t),
         (parseLoopAux (i + 2 * ps.length) rest).2) := by
  induction ps generalizing i with
  | nil =>
    simp [pairLines, expectedDocs]
  | cons p ps ih =>
    obtain ⟨a, b⟩ := p
    have hp : (buildDoc a b).isSome = true := h (a, b) (by simp)
    obtain ⟨bd, hbd⟩ := Option.isSome_iff_exists.mp hp
    have hrest : ∀ q ∈ ps, (buildDoc q.1 q.2).isSome = true := by
      intro q hq
      exact h q (by simp [hq])
    rw [pairLines, List.cons_append, List.cons_append,
      parseLoopAux_pair i a b bd _ hbd, ih hrest (i + 2)]
    have hexp : expectedDocs ((a, b) :: ps) = bd :: expectedDocs ps := by
      simp [expectedDocs, List.filterMap_cons, hbd]
    have harith : i + 2 + 2 * ps.length = i + 2 * ((a, b) :: ps).length := by
      simp [List.length_cons]
      ring
    rw [hexp, harith]
    cases hres : (parseLoopAux (i + 2 * ((a, b) :: ps).length) rest).1 <;>
      simp [Option.map]

theorem expectedDocs_length (ps : List (Json × Json))
    (h : ∀ p ∈ ps, (buildDoc p.1 p.2).isSome = true) :
    (expectedDocs ps).length = ps.length := by
  induction ps with
  | nil => simp [expectedDocs]
  | cons p ps ih =>
    have hp : (buildDoc p.1 p.2).isSome = true := h p (by simp)
    obtain ⟨bd, hbd⟩ := Option.isSome_iff_exists.mp hp
    have htl := ih (fun q hq => h q (by simp [hq]))
    simp only [expectedDocs, List.filterMap_cons, hbd] at htl ⊢
    simp [htl]

/-- Evaluation of the parser on the spec's two-pair example stream. -/
theorem parse_exPairs_eval :
    parse_ndjson_for_bulk (ParseInput.content (pairLines exPairs))
      = (some (expectedDocs exPairs), []) := by
  have h' : ∀ p ∈ exPairs, (buildDoc p.1 p.2).isSome = true := by
    intro p hp
    simp [exPairs] at hp
    rcases hp with h | h <;> subst h <;> rfl
  simp only [parse_ndjson_for_bulk]
  rw [show pairLines exPairs = pairLines exPairs ++ [] from
      (List.append_nil _).symm,
    parseLoopAux_pairsRun exPairs h' 0 [], parseLoopAux_nil]
  simp

/-- Every loop iteration that continues the loop strictly advances the
cursor (by one or two). -/
theorem loopBodyStep_advance (lines : List Line) (i j : Nat)
    (h : loopBodyStep lines i = StepOut.next j) : i < j := by
  simp only [loopBodyStep] at h
  repeat' split at h
  all_goals try exact StepOut.noConfusion h
  all_goals injection h with hj
  all_goals omega

/-- Fuel `lines.length - i` suffices for the loop to finish from cursor
`i`; the loop always terminates. -/
theorem runLoop_sufficient_fuel (lines : List Line) :
    ∀ fuel i, lines.length ≤ i + fuel → (runLoop lines fuel i).isSome = true := by
  intro fuel
  induction fuel with
  | zero =>
    intro i h
    rw [runLoop, if_neg (by omega)]
    rfl
  | succ fuel ih =>
    intro i h
    rw [runLoop]
    by_cases hi : i < lines.length
    · rw [if_pos hi]
      cases hstep : loopBodyStep lines i with
      | abort => rfl
      | next j =>
        have hij := loopBodyStep_advance lines i j hstep
        exact ih j (by omega)
    · rw [if_neg hi]
      rfl

/-- C1: on a well-formed NDJSON stream of N action/document pairs with no
malformed or blank lines, the parser returns exactly N records, in input
order, each built by `buildDoc` from its pair's action and body (so a
well-shaped action line contributes its `_index`/`_id` fields and the body
becomes `_source`), and prints no warning. -/
theorem parse_wellformed_stream (ps : List (Json × Json))
    (h : ps.all (fun p => (buildDoc p.1 p.2).isSome) = true) :
    parse_ndjson_for_bulk (ParseInput.content (pairLines ps))
      = (some (expectedDocs ps), [])
    ∧ (expectedDocs ps).length = ps.length
    ∧ (∀ ix idv doc, buildDoc
        (Json.obj [("index", Json.obj [("_index", ix), ("_id", idv)])]) doc
        = some { _index := some ix, _id := some idv, _source := doc }) := by
  have h' : ∀ p ∈ ps, (buildDoc p.1 p.2).isSome = true := by
    simpa using h
  refine ⟨?_, expectedDocs_length ps h', fun ix idv doc => rfl⟩
  simp only [parse_ndjson_for_bulk]
  rw [show pairLines ps = pairLines ps ++ [] from (List.append_nil _).symm,
    parseLoopAux_pairsRun ps h' 0 [], parseLoopAux_nil]
  simp

/-- C1 witness: on the spec's example input the parser yields exactly the
records `{_index: "a", _id: "1", _source: {f:1}}` and
`{_index: "a", _id: "2", _source: {f:2}}`, with no warnings. -/
theorem parse_wellformed_stream_witness :
    parse_ndjson_for_bulk (ParseInput.content (pairLines exPairs))
      = (some [{ _index := some (Json.str "a"), _id := some (Json.str "1"),
                 _source := exBody 1 },
               { _index := some (Json.str "a"), _id := some (Json.str "2"),
                 _source := exBody 2 }], []) := by
  have h := (parse_wellformed_stream exPairs rfl).1
  rw [h]
  rfl

/-- C3: the parsing loop terminates on every finite input. Every iteration
that continues the loop strictly advances the cursor; fuel equal to the
number of lines always suffices for the loop to finish; and when a document
line fails to parse after a valid action line, the pair is dropped with no
record emitted and the cursor advances by exactly one (past the action
line), so the document line becomes the next candidate action. -/
theorem parse_loop_terminates :
    (∀ (lines : List Line) (i j : Nat),
      loopBodyStep lines i = StepOut.next j → i < j)
    ∧ (∀ lines : List Line, (runLoop lines lines.length 0).isSome = true)
    ∧ (∀ (i : Nat) (a : Json) (d : Line) (rest2 : List Line),
        parseLine d = none →
        parseLoopAux i (Line.json a :: d :: rest2)
          = withWarn (i + 1) (parseLoopAux (i + 1) (d :: rest2))) :=
  ⟨fun lines i j h => loopBodyStep_advance lines i j h,
   fun lines => runLoop_sufficient_fuel lines lines.length 0 (by omega),
   fun i a d rest2 hd => parseLoopAux_docFail i a d rest2 hd⟩

/-- C3 witness: on a concrete two-line input whose document line is
malformed, the step from cursor 0 goes to cursor 1, and the loop drops the
pair, emitting the warning and retrying the malformed line as an action. -/
theorem parse_loop_terminates_witness :
    (0 : Nat) < 1
    ∧ parseLoopAux 0 [Line.json (Json.obj []), Line.malformed]
        = withWarn 1 (parseLoopAux 1 [Line.malformed]) :=
  ⟨parse_loop_terminates.1 [Line.json (Json.obj []), Line.malformed] 0 1 rfl,
   parse_loop_terminates.2.2 0 (Json.obj []) Line.malformed [] rfl⟩

/-- C4: a non-blank line at the action position that fails `json.loads` is
reported with an `Invalid JSON` warning naming its 1-based line number
`i + 1` (for 0-based cursor `i`), contributes no record, and parsing
continues with the immediately following line as the next candidate action. -/
theorem malformed_action_line_skipped (i : Nat) (l : Line) (rest : List Line)
    (hnb : l.isBlank = false) (hp : parseLine l = none) :
    parseLoopAux i (l :: rest)
      = ((parseLoopAux (i + 1) rest).1,
         Warning.invalidJson (i + 1) :: (parseLoopAux (i + 1) rest).2) := by
  cases l with
  | blank => simp [Line.isBlank] at hnb
  | json v => simp [parseLine] at hp
  | malformed =>
    rw [parseLoopAux_malformed]
    rfl

/-- C4 witness: a malformed first line followed by a well-formed pair is
skipped with a warning at line 1 and the pair still parses from line 2. -/
theorem malformed_action_line_skipped_witness :
    parseLoopAux 0
        (Line.malformed :: [Line.json (exAction "a" "1"), Line.json (exBody 1)])
      = ((parseLoopAux 1 [Line.json (exAction "a" "1"), Line.json (exBody 1)]).1,
         Warning.invalidJson 1 ::
           (parseLoopAux 1 [Line.json (exAction "a" "1"), Line.json (exBody 1)]).2) :=
  malformed_action_line_skipped 0 Line.malformed
    [Line.json (exAction "a" "1"), Line.json (exBody 1)] rfl rfl

/-- C5: when the final line is a successfully parsed action descriptor with
no following line, after any number of well-formed pairs, the parser prints
exactly one warning (the missing-document warning naming that line's 1-based
number), produces no record for the trailing action, does not crash, and
still returns the records of all preceding pairs. -/
theorem trailing_action_one_warning (ps : List (Json × Json)) (a : Json)
    (h : ps.all (fun p => (buildDoc p.1 p.2).isSome) = true) :
    parse_ndjson_for_bulk
        (ParseInput.content (pairLines ps ++ [Line.json a]))
      = (some (expectedDocs ps),
         [Warning.missingDoc (2 * ps.length + 1)]) := by
  have h' : ∀ p ∈ ps, (buildDoc p.1 p.2).isSome = true := by
    simpa using h
  simp only [parse_ndjson_for_bulk]
  rw [parseLoopAux_pairsRun ps h' 0 [Line.json a], parseLoopAux_orphan]
  simp [Nat.add_comm]

/-- C5 witness: the example pairs followed by an orphan action line yield
the two example records and exactly the missing-document warning for
line 5. -/
theorem trailing_action_one_warning_witness :
    parse_ndjson_for_bulk
        (ParseInput.content (pairLines exPairs ++ [Line.json (exAction "a" "3")]))
      = (some (expectedDocs exPairs), [Warning.missingDoc 5]) := by
  have h := trailing_action_one_warning exPairs (exAction "a" "3") rfl
  simpa [exPairs] using h

/-- C2 counterexample: inserting a blank line between the first action line
and its document line changes the record sequence. The original example
stream yields two records; with the blank inserted, the document parse of
the blank raises, the first pair is dropped, the stream desynchronizes and
a single, different record is produced. -/
theorem blank_inside_pair_cex :
    ((parse_ndjson_for_bulk (ParseInput.content
        [Line.json (exAction "a" "1"), Line.blank, Line.json (exBody 1),
         Line.json (exAction "a" "2"), Line.json (exBody 2)])).1).map
        List.length
      ≠ ((parse_ndjson_for_bulk
          (ParseInput.content (pairLines exPairs))).1).map List.length := by
  have h1 : parse_ndjson_for_bulk (ParseInput.content
        [Line.json (exAction "a" "1"), Line.blank, Line.json (exBody 1),
         Line.json (exAction "a" "2"), Line.json (exBody 2)])
      = (some [⟨none, none, exAction "a" "2"⟩],
         [Warning.invalidJson 1, Warning.missingDoc 5]) := by
    simp only [parse_ndjson_for_bulk]
    rw [parseLoopAux_docFail 0 (exAction "a" "1") Line.blank _ rfl,
      parseLoopAux_blank,
      parseLoopAux_pair 2 (exBody 1) (exAction "a" "2")
        ⟨none, none, exAction "a" "2"⟩ _ rfl,
      parseLoopAux_orphan]
    rfl
  rw [h1, parse_exPairs_eval]
  have h2 : expectedDocs exPairs
      = [{ _index := some (Json.str "a"), _id := some (Json.str "1"),
           _source := exBody 1 },
         { _index := some (Json.str "a"), _id := some (Json.str "2"),
           _source := exBody 2 }] := rfl
  rw [h2]
  simp

/-- C2 (amended): blank or whitespace-only lines are skipped only when they
stand at a candidate-action position: a blank line inserted at a pair
boundary leaves the record sequence unchanged, and a blank line at the head
of the remaining input is skipped by moving the cursor one line forward.
(A blank line between an action and its document instead fails the document
parse and drops the pair.) -/
theorem blank_skipped_at_action_position (ps1 ps2 : List (Json × Json))
    (h1 : ps1.all (fun p => (buildDoc p.1 p.2).isSome) = true)
    (h2 : ps2.all (fun p => (buildDoc p.1 p.2).isSome) = true) :
    ((parse_ndjson_for_bulk (ParseInput.content
        (pairLines ps1 ++ Line.blank :: pairLines ps2))).1)
      = ((parse_ndjson_for_bulk (ParseInput.content
        (pairLines ps1 ++ pairLines ps2))).1)
    ∧ (∀ (i : Nat) (rest : List Line),
        parseLoopAux i (Line.blank :: rest) = parseLoopAux (i + 1) rest) := by
  have h1' : ∀ p ∈ ps1, (buildDoc p.1 p.2).isSome = true := by
    simpa using h1
  have h2' : ∀ p ∈ ps2, (buildDoc p.1 p.2).isSome = true := by
    simpa using h2
  refine ⟨?_, fun i rest => parseLoopAux_blank i rest⟩
  simp only [parse_ndjson_for_bulk]
  rw [parseLoopAux_pairsRun ps1 h1' 0 (Line.blank :: pairLines ps2),
    parseLoopAux_pairsRun ps1 h1' 0 (pairLines ps2), parseLoopAux_blank,
    show pairLines ps2 = pairLines ps2 ++ [] from (List.append_nil _).symm,
    parseLoopAux_pairsRun ps2 h2' (0 + 2 * ps1.length + 1) [],
    parseLoopAux_pairsRun ps2 h2' (0 + 2 * ps1.length) [],
    parseLoopAux_nil]
  simp [parseLoopAux_nil]

/-- C2 witness: with one well-formed pair on each side, inserting a blank
line between the two pairs leaves the parsed records unchanged. -/
theorem blank_skipped_at_action_position_witness :
    ((parse_ndjson_for_bulk (ParseInput.content
        (pairLines [(exAction "a" "1", exBody 1)] ++ Line.blank ::
          pairLines [(exAction "a" "2", exBody 2)]))).1)
      = ((parse_ndjson_for_bulk (ParseInput.content
        (pairLines [(exAction "a" "1", exBody 1)] ++
          pairLines [(exAction "a" "2", exBody 2)]))).1) :=
  (blank_skipped_at_action_position [(exAction "a" "1", exBody 1)]
    [(exAction "a" "2", exBody 2)] rfl rfl).1

/-- C6: `bulk_index_documents` reports failure exactly when the parser
returned no sequence, the parsed sequence is empty, or the bulk call raised;
when the sequence is empty no bulk call is made; and a completed bulk call
with a non-empty per-record failure list still reports success. -/
theorem bulk_submit_failure_iff (input : ParseInput) (outcome : BulkOutcome) :
    (((bulk_index_documents input outcome).1 = false)
      ↔ ((parse_ndjson_for_bulk input).1 = none
         ∨ (parse_ndjson_for_bulk input).1 = some []
         ∨ outcome = BulkOutcome.raised))
    ∧ ((parse_ndjson_for_bulk input).1 = some []
        → (bulk_index_documents input outcome).2 = [])
    ∧ (∀ (n : Nat) (fails : List String),
        outcome = BulkOutcome.ok n fails
        → (parse_ndjson_for_bulk input).1 ≠ none
        → (parse_ndjson_for_bulk input).1 ≠ some []
        → (bulk_index_documents input outcome).1 = true) := by
  cases hp : (parse_ndjson_for_bulk input).1 with
  | none =>
    cases outcome <;> simp [bulk_index_documents, hp]
  | some docs =>
    cases docs with
    | nil => cases outcome <;> simp [bulk_index_documents, hp]
    | cons d ds => cases outcome <;> simp [bulk_index_documents, hp]

/-- C6 witness: on the example stream, a completed bulk call that rejected
some documents still makes the submitter report success. -/
theorem bulk_submit_failure_iff_witness :
    (bulk_index_documents (ParseInput.content (pairLines exPairs))
        (BulkOutcome.ok 1 ["mapper_parsing_exception"])).1 = true := by
  refine (bulk_submit_failure_iff (ParseInput.content (pairLines exPairs))
      (BulkOutcome.ok 1 ["mapper_parsing_exception"])).2.2 1
      ["mapper_parsing_exception"] rfl ?_ ?_
  · rw [parse_exPairs_eval]
    simp
  · rw [parse_exPairs_eval]
    have h2 : expectedDocs exPairs
        = [{ _index := some (Json.str "a"), _id := some (Json.str "1"),
             _source := exBody 1 },
           { _index := some (Json.str "a"), _id := some (Json.str "2"),
             _source := exBody 2 }] := rfl
    rw [h2]
    simp

/-- C7: `create_index` always checks existence first; when the index exists
it deletes it and then creates it, when it does not exist it creates it
directly; it returns `True` exactly when every call it made succeeded, and
an exception raised by the existence check, the delete or the create makes
it return `False` with no call retried (each cluster operation appears at
most once in the trace). -/
theorem create_index_contract (es : ESIndices) :
    (es.existsResult = OpResult.raised
      → create_index es = (false, [NetCall.existsCheck]))
    ∧ (es.existsResult = OpResult.ok true → es.deleteResult = OpResult.raised
      → create_index es = (false, [NetCall.existsCheck, NetCall.deleteIndex]))
    ∧ (es.existsResult = OpResult.ok true → es.deleteResult = OpResult.ok ()
      → es.createResult = OpResult.raised
      → create_index es
          = (false, [NetCall.existsCheck, NetCall.deleteIndex,
                     NetCall.createIndex]))
    ∧ (es.existsResult = OpResult.ok true → es.deleteResult = OpResult.ok ()
      → es.createResult = OpResult.ok ()
      → create_index es
          = (true, [NetCall.existsCheck, NetCall.deleteIndex,
                    NetCall.createIndex]))
    ∧ (es.existsResult = OpResult.ok false → es.createResult = OpResult.raised
      → create_index es = (false, [NetCall.existsCheck, NetCall.createIndex]))
    ∧ (es.existsResult = OpResult.ok false → es.createResult = OpResult.ok ()
      → create_index es = (true, [NetCall.existsCheck, NetCall.createIndex]))
    ∧ ((create_index es).2.head? = some NetCall.existsCheck)
    ∧ (∀ c : NetCall, (create_index es).2.count c ≤ 1) := by
  obtain ⟨er, dr, cr⟩ := es
  cases er with
  | raised =>
    rcases dr with ⟨⟨⟩⟩ | _ <;> rcases cr with ⟨⟨⟩⟩ | _ <;>
      refine ⟨?_, ?_, ?_, ?_, ?_, ?_, rfl, fun c => by cases c <;> decide⟩ <;>
        (intros; simp_all [create_index])
  | ok b =>
    cases b <;> rcases dr with ⟨⟨⟩⟩ | _ <;> rcases cr with ⟨⟨⟩⟩ | _ <;>
      refine ⟨?_, ?_, ?_, ?_, ?_, ?_, rfl, fun c => by cases c <;> decide⟩ <;>
        (intros; simp_all [create_index])

/-- C7 witness: with an existing index and a cooperating cluster, the trace
is exists-check, delete, create, and the call reports success. -/
theorem create_index_contract_witness :
    create_index ⟨OpResult.ok true, OpResult.ok (), OpResult.ok ()⟩
      = (true, [NetCall.existsCheck, NetCall.deleteIndex,
                NetCall.createIndex]) :=
  (create_index_contract
    ⟨OpResult.ok true, OpResult.ok (), OpResult.ok ()⟩).2.2.2.1 rfl rfl rfl

/-- C8 counterexample: the mapping loader does not return an indicator to
its caller on a missing mapping file — it terminates the process itself
(`sys.exit(1)` at line 17 of `setup.py`), so a component other than the
orchestrator terminates the process. -/
theorem component_exit_policy_cex :
    ¬ ∃ m, read_mapping_file MappingFileState.missing = ProcResult.ret m := by
  rintro ⟨m, h⟩
  simp [read_mapping_file] at h

/-- C8 (amended): the mapping loader is the exception to the propagation
policy: it exits the process itself with status 1 on a missing or invalid
mapping file and returns the mapping only on success; for the other
components the orchestrator decides termination — e.g. a null result from
the connector makes `main` (not the connector) exit with status 1. -/
theorem component_exit_policy_amended :
    read_mapping_file MappingFileState.missing = ProcResult.exits 1
    ∧ read_mapping_file MappingFileState.invalidJson = ProcResult.exits 1
    ∧ (∀ m, read_mapping_file (MappingFileState.valid m) = ProcResult.ret m)
    ∧ (∀ w : MainWorld, truthy w.es_host = true → truthy w.api_key = true
        → (connect_to_elasticsearch w.conn).1 = none
        → mainRun w = (MainResult.exited 1, (connect_to_elasticsearch w.conn).2)) := by
  refine ⟨rfl, rfl, fun m => rfl, ?_⟩
  intro w h1 h2 hconn
  rcases hcc : connect_to_elasticsearch w.conn with ⟨res, calls⟩
  rw [hcc] at hconn
  simp at hconn
  subst hconn
  simp [mainRun, h1, h2, hcc]

/-- C8 witness: a world with both environment variables set whose liveness
ping fails makes the orchestrator exit with status 1 after the single ping
call. -/
theorem component_exit_policy_amended_witness :
    mainRun ⟨some "https://localhost:9200", some "key", ConnOutcome.pingFails,
      MappingFileState.valid (Json.obj []),
      ⟨OpResult.ok false, OpResult.ok (), OpResult.ok ()⟩,
      ⟨OpResult.ok false, OpResult.ok (), OpResult.ok ()⟩,
      ParseInput.fileMissing, BulkOutcome.raised⟩
      = (MainResult.exited 1, [NetCall.ping]) := by
  have h := component_exit_policy_amended.2.2.2
    ⟨some "https://localhost:9200", some "key", ConnOutcome.pingFails,
      MappingFileState.valid (Json.obj []),
      ⟨OpResult.ok false, OpResult.ok (), OpResult.ok ()⟩,
      ⟨OpResult.ok false, OpResult.ok (), OpResult.ok ()⟩,
      ParseInput.fileMissing, BulkOutcome.raised⟩ rfl rfl rfl
  simpa [connect_to_elasticsearch] using h

/-- C9: when `ES_HOST` or `API_KEY` is unset or empty, `main` exits
immediately with status 1 and performs no network call: no ping, no index
operation and no bulk call appear in the trace. -/
theorem missing_env_exits_early (w : MainWorld)
    (h : truthy w.es_host = false ∨ truthy w.api_key = false) :
    mainRun w = (MainResult.exited 1, []) := by
  rcases h with h | h
  · simp [mainRun, h]
  · by_cases h2 : truthy w.es_host = false
    · simp [mainRun, h2]
    · simp at h2
      simp [mainRun, h2, h]

/-- C9 witness: with `ES_HOST` unset, the run exits with status 1 and an
empty network trace, whatever the rest of the world looks like. -/
theorem missing_env_exits_early_witness :
    mainRun ⟨none, some "key", ConnOutcome.pingOk,
      MappingFileState.valid (Json.obj []),
      ⟨OpResult.ok false, OpResult.ok (), OpResult.ok ()⟩,
      ⟨OpResult.ok false, OpResult.ok (), OpResult.ok ()⟩,
      ParseInput.fileMissing, BulkOutcome.raised⟩
      = (MainResult.exited 1, []) :=
  missing_env_exits_early _ (Or.inl rfl)

/-- C10 counterexample: an action line that is valid JSON but not an object
(a bare number) does not yield a record with null index and id — the
`AttributeError` from `.get` aborts the whole parse, which returns no
sequence at all. -/
theorem nonobject_action_aborts_cex :
    (parse_ndjson_for_bulk (ParseInput.content
        [Line.json (Json.num 5), Line.json (exBody 1)])).1 = none := by
  simp only [parse_ndjson_for_bulk]
  rw [parseLoopAux_pairAbort 0 (Json.num 5) (exBody 1) [] rfl]

/-- C10 (amended): no shape validation is performed on action lines that
parse to objects: an object action without the `index` wrapper (or with an
empty wrapper object) still produces a record whose target index and id are
null; but an action line that parses to a non-object value raises
`AttributeError`, aborting the parse with no sequence returned. -/
theorem shapeless_object_action_emits_nulls (d : Json) :
    parse_ndjson_for_bulk
        (ParseInput.content [Line.json (Json.obj []), Line.json d])
      = (some [{ _index := none, _id := none, _source := d }], [])
    ∧ buildDoc (Json.obj [("index", Json.obj [])]) d
        = some { _index := none, _id := none, _source := d }
    ∧ buildDoc (Json.num 5) d = none := by
  refine ⟨?_, rfl, rfl⟩
  simp only [parse_ndjson_for_bulk]
  rw [parseLoopAux_pair 0 (Json.obj []) d ⟨none, none, d⟩ [] rfl,
    parseLoopAux_nil]
  rfl

/-- C10 witness: an empty-object action line followed by the example body
produces exactly one record with null target index and null id. -/
theorem shapeless_object_action_emits_nulls_witness :
    parse_ndjson_for_bulk
        (ParseInput.content [Line.json (Json.obj []), Line.json (exBody 1)])
      = (some [{ _index := none, _id := none, _source := exBody 1 }], []) :=
  (shapeless_object_action_emits_nulls (exBody 1)).1
